import Mathlib

/-!
Verification development for the reMarkable v6 scene-file core
(rmscene TypeScript port): CRDT identifiers, the varuint codec, the
tagged stream reader, the CRDT sequence topological sort, and the
scene-tree builder, shallowly embedded from the TypeScript sources.

JavaScript numeric semantics are made explicit: bitwise operators
coerce to 32-bit integers, so intermediate values are tracked as
natural-number representatives reduced modulo 2^32, with toInt32
recovering the signed value the JS code observes.  Floating-point
payloads are never computed with by the embedded functions, so f32/f64
fields are carried as their raw little-endian bit patterns.
-/

deriving instance DecidableEq for Except

namespace RmScene

/-- A CRDT identifier: an author byte part1 and a counter part2
(interface CrdtId in tagged-block-common.ts). -/
structure CrdtId where
  part1 : Nat
  part2 : Nat
deriving DecidableEq, Repr

/-- createCrdtId from tagged-block-common.ts. -/
def createCrdtId (part1 part2 : Nat) : CrdtId := ⟨part1, part2⟩

/-- crdtIdEquals from tagged-block-common.ts. -/
def crdtIdEquals (a b : CrdtId) : Bool :=
  a.part1 == b.part1 && a.part2 == b.part2

/-- crdtIdCompare from tagged-block-common.ts: numeric lexicographic
comparison on the pair, returning -1, 0 or 1. -/
def crdtIdCompare (a b : CrdtId) : Int :=
  if a.part1 ≠ b.part1 then (if a.part1 < b.part1 then -1 else 1)
  else if a.part2 ≠ b.part2 then (if a.part2 < b.part2 then -1 else 1)
  else 0

/-- crdtIdToString from tagged-block-common.ts: the template literal
producing the decimal rendering CrdtId(part1, part2). -/
def crdtIdToString (id : CrdtId) : String :=
  "CrdtId(" ++ toString id.part1 ++ ", " ++ toString id.part2 ++ ")"

/-- The end marker CrdtId (0, 0). -/
def END_MARKER : CrdtId := ⟨0, 0⟩

/-- Reinterpret the unsigned 32-bit representative of a JS bitwise
result as the signed int32 value JavaScript observes. -/
def toInt32 (n : Nat) : Int :=
  if n % 2 ^ 32 < 2 ^ 31 then ((n % 2 ^ 32 : Nat) : Int)
  else ((n % 2 ^ 32 : Nat) : Int) - 2 ^ 32

/-- The loop of DataStream.writeVaruint.  The argument is the current
JS value; after each iteration the JS update value >>>= 7 has coerced
it to an unsigned 32-bit integer, which the caller establishes for the
first iteration by reducing modulo 2^32. -/
def writeVaruintGo (v : Nat) : List Nat :=
  if h : v / 128 = 0 then [v % 128]
  else Nat.lor (v % 128) 128 :: writeVaruintGo (v / 128)
termination_by v
decreasing_by
  exact Nat.div_lt_self
    (Nat.pos_of_ne_zero (fun hv => h (by simp [hv]))) (by norm_num)

/-- DataStream.writeVaruint: rejects a negative value, then emits
LEB128 bytes.  The bitwise operators in the JS loop coerce the value to
32 bits, hence the initial reduction modulo 2^32. -/
def writeVaruint (value : Int) : Except String (List Nat) :=
  if value < 0 then Except.error "value is negative"
  else Except.ok (writeVaruintGo (value.toNat % 2 ^ 32))

/-- The loop of DataStream.readVaruint over a byte list, tracking the
unsigned 32-bit representative of the JS result variable and the
number of bytes consumed.  result |= (byte & 0x7F) << shift performs
32-bit operations: the shift amount is taken mod 32 and the shifted
value is reduced mod 2^32 before the bitwise or. -/
def readVaruintCore : List Nat → Nat → Nat → Except String (Nat × Nat)
  | [], _, _ => Except.error "EOF"
  | b :: bs, shift, result =>
    let result2 := Nat.lor (result % 2 ^ 32)
      ((Nat.land b 127 * 2 ^ (shift % 32)) % 2 ^ 32)
    if Nat.land b 128 = 0 then Except.ok (result2, 1)
    else (readVaruintCore bs (shift + 7) result2).map (fun p => (p.1, p.2 + 1))

/-- DataStream.readVaruint applied to a byte list: the returned JS
number is the signed 32-bit value produced by the bitwise
accumulation.  Also returns the number of bytes consumed. -/
def readVaruint (bytes : List Nat) : Except String (Int × Nat) :=
  (readVaruintCore bytes 0 0).map (fun p => (toInt32 p.1, p.2))

/-- A DataStream read cursor: the byte buffer and the position. -/
structure DStream where
  data : List Nat
  pos : Nat
deriving DecidableEq, Repr

/-- The error values surfaced by the stream primitives.  unexpectedTag
models the UnexpectedBlockError class raised by readTag; the other
constructors model the plain Error values (message EOF, Bad tag type,
the ASCII-flag failure in readString, and BlockOverflowError). -/
inductive StreamErr where
  | eof
  | badTagType
  | unexpectedTag
  | invalidAscii
  | blockOverflow
deriving DecidableEq, Repr

/-- Advance the stream position by k bytes. -/
def DStream.advance (s : DStream) (k : Nat) : DStream := ⟨s.data, s.pos + k⟩

/-- DataStream.readVaruint as a stream operation.  On EOF the JS loop
has already consumed every remaining byte before the failing
readUint8, so the position ends at the end of the buffer. -/
def DStream.readVaruint (s : DStream) : Except StreamErr Int × DStream :=
  match RmScene.readVaruint (s.data.drop s.pos) with
  | Except.ok p => (Except.ok p.1, s.advance p.2)
  | Except.error _ => (Except.error StreamErr.eof, s.advance (s.data.length - s.pos))

/-- DataStream._readTagValues: reads a varuint x and splits it into
index = x >> 4 (an arithmetic shift on the signed 32-bit value, i.e.
floor division by 16) and wire type x & 0xF.  A wire type outside the
TagType enumeration raises a plain Error, leaving the position after
the varuint. -/
def DStream.readTagValues (s : DStream) : Except StreamErr (Int × Nat) × DStream :=
  match s.readVaruint with
  | (Except.error e, s1) => (Except.error e, s1)
  | (Except.ok x, s1) =>
    let index : Int := Int.fdiv x 16
    let tagTypeValue : Nat := (Int.emod x (2 ^ 32)).toNat % 16
    if tagTypeValue = 15 ∨ tagTypeValue = 12 ∨ tagTypeValue = 8 ∨
        tagTypeValue = 4 ∨ tagTypeValue = 1 then
      (Except.ok (index, tagTypeValue), s1)
    else
      (Except.error StreamErr.badTagType, s1)

/-- DataStream.readTag: saves the position, decodes a tag, and on an
index or wire-type mismatch restores the saved position and fails with
UnexpectedTag.  Errors raised while decoding the tag itself (EOF, bad
tag type) propagate without restoring the position. -/
def DStream.readTag (s : DStream) (expectedIndex : Int) (expectedType : Nat) :
    Except StreamErr (Int × Nat) × DStream :=
  match s.readTagValues with
  | (Except.error e, s1) => (Except.error e, s1)
  | (Except.ok (index, tagType), s1) =>
    if index ≠ expectedIndex then
      (Except.error StreamErr.unexpectedTag, ⟨s1.data, s.pos⟩)
    else if tagType ≠ expectedType then
      (Except.error StreamErr.unexpectedTag, ⟨s1.data, s.pos⟩)
    else (Except.ok (index, tagType), s1)

/-- Reader computations over a mutable DataStream: a JS exception
leaves the stream in its mutated state, so an error result still
carries the stream. -/
def RM (α : Type) : Type := DStream → Except StreamErr α × DStream

instance : Monad RM where
  pure a := fun s => (Except.ok a, s)
  bind m f := fun s =>
    match m s with
    | (Except.error e, s1) => (Except.error e, s1)
    | (Except.ok a, s1) => f a s1

/-- Raise a stream error, leaving the stream as it is. -/
def throwErr (e : StreamErr) : RM α := fun s => (Except.error e, s)

/-- DataStream.readUint8: one byte, EOF if past the end. -/
def readUint8 : RM Nat := fun s =>
  if s.pos + 1 > s.data.length then (Except.error StreamErr.eof, s)
  else (Except.ok (s.data.getD s.pos 0), s.advance 1)

/-- DataStream.readBool: a byte compared against zero. -/
def readBool : RM Bool := do
  let b ← readUint8
  pure (b != 0)

/-- DataStream.readUint32: four bytes little-endian, EOF checked before
any byte is consumed. -/
def readUint32 : RM Nat := fun s =>
  if s.pos + 4 > s.data.length then (Except.error StreamErr.eof, s)
  else
    (Except.ok (s.data.getD s.pos 0 + s.data.getD (s.pos + 1) 0 * 2 ^ 8 +
      s.data.getD (s.pos + 2) 0 * 2 ^ 16 + s.data.getD (s.pos + 3) 0 * 2 ^ 24),
      s.advance 4)

/-- DataStream.readBytes: n bytes, EOF checked before any byte is
consumed. -/
def readBytes (n : Nat) : RM (List Nat) := fun s =>
  if s.pos + n > s.data.length then (Except.error StreamErr.eof, s)
  else (Except.ok ((s.data.drop s.pos).take n), s.advance n)

/-- DataStream.readFloat64: eight bytes little-endian, carried as the
raw f64 bit pattern (no claim computes with float values). -/
def readFloat64 : RM Nat := fun s =>
  if s.pos + 8 > s.data.length then (Except.error StreamErr.eof, s)
  else
    (Except.ok (((s.data.drop s.pos).take 8).foldr (fun b acc => acc * 256 + b) 0),
      s.advance 8)

/-- DataStream.readVaruint as an RM action. -/
def readVaruintR : RM Int := fun s => s.readVaruint

/-- DataStream.readTag as an RM action. -/
def readTagR (expectedIndex : Int) (expectedType : Nat) : RM (Int × Nat) :=
  fun s => s.readTag expectedIndex expectedType

/-- The bookkeeping record returned by TaggedBlockReader.readSubblock:
offset of the payload start and declared size.  The captured extraData
is discarded by every caller modelled here and is not recorded. -/
structure SubBlockInfo where
  offset : Nat
  size : Nat
deriving DecidableEq, Repr

/-- TaggedBlockReader.readInt: a tag at the given index with wire type
0x4 (Byte4), then a u32. -/
def readInt (index : Int) : RM Nat := do
  let _ ← readTagR index 4
  readUint32

/-- TaggedBlockReader.readIntOptional with the default null: catches
UnexpectedBlockError and EOF and returns none; any other error
propagates.  The stream is left wherever the failed attempt put it
(readTag restores the position on a tag mismatch, but an EOF inside
the payload read leaves the tag consumed). -/
def readIntOptional (index : Int) : RM (Option Nat) := fun s =>
  match readInt index s with
  | (Except.ok v, s1) => (Except.ok (some v), s1)
  | (Except.error StreamErr.unexpectedTag, s1) => (Except.ok none, s1)
  | (Except.error StreamErr.eof, s1) => (Except.ok none, s1)
  | (Except.error e, s1) => (Except.error e, s1)

/-- TaggedBlockReader.readSubblock: a tag with wire type 0xC (Length4),
a u32 length, and the resulting scope record. -/
def readSubblock (index : Int) : RM SubBlockInfo := do
  let _ ← readTagR index 12
  let subblockLength ← readUint32
  fun s => (Except.ok ⟨s.pos, subblockLength⟩, s)

/-- TaggedBlockReader._checkPosition: reading past the declared end is
fatal (BlockOverflowError); unread bytes inside the scope are consumed
as extraData.  The once-per-reader console warning has no observable
effect on the stream or the results and is not modelled. -/
def checkPosition (info : SubBlockInfo) : RM Unit := fun s =>
  if s.pos > info.offset + info.size then (Except.error StreamErr.blockOverflow, s)
  else if s.pos < info.offset + info.size then
    match readBytes (info.offset + info.size - s.pos) s with
    | (Except.error e, s1) => (Except.error e, s1)
    | (Except.ok _, s1) => (Except.ok (), s1)
  else (Except.ok (), s)

/-- TaggedBlockReader.endSubblock. -/
def endSubblock (info : SubBlockInfo) : RM Unit := checkPosition info

/-- TaggedBlockReader.readString: a sub-block holding a varuint length,
the ASCII flag (which must be set), then the bytes.  The decoded JS
string is modelled as its byte sequence; for the ASCII payloads in the
statements below the JS string length equals the byte count.  The
varuint length is non-negative in any stream small enough to be
represented, so its non-negative part is taken. -/
def readString (index : Int) : RM (List Nat) := do
  let info ← readSubblock index
  let stringLength ← readVaruintR
  let isAscii ← readBool
  if isAscii then
    let bytes ← readBytes stringLength.toNat
    let _ ← endSubblock info
    pure bytes
  else
    throwErr StreamErr.invalidAscii

/-- A GlyphRange as decoded (scene-items.ts): float rectangle
coordinates are carried as f64 bit patterns and the text as its byte
sequence. -/
structure GlyphRange where
  start : Option Nat
  length : Nat
  text : List Nat
  color : Nat
  rectangles : List (Nat × Nat × Nat × Nat)
deriving DecidableEq, Repr

/-- The rectangle loop of readGlyphRange: each rectangle is four f64
values, read in order. -/
def readRectangles : Nat → RM (List (Nat × Nat × Nat × Nat))
  | 0 => pure []
  | Nat.succ n => do
    let x ← readFloat64
    let y ← readFloat64
    let w ← readFloat64
    let h ← readFloat64
    let rest ← readRectangles n
    pure ((x, y, w, h) :: rest)

/-- readGlyphRange from tagged-block-common.ts.  The absent length
defaults to 0 (the JS ?? 0), and the final length is the JS expression
length || text.length, which replaces a zero length by the text
length.  The rectangle count is the varuint value, with a negative
int32 yielding zero loop iterations. -/
def readGlyphRange : RM GlyphRange := do
  let start ← readIntOptional 2
  let lengthOpt ← readIntOptional 3
  let length := lengthOpt.getD 0
  let colorId ← readInt 4
  let text ← readString 5
  let info ← readSubblock 6
  let numRects ← readVaruintR
  let rectangles ← readRectangles numRects.toNat
  let _ ← endSubblock info
  pure ⟨start, if length = 0 then text.length else length, text, colorId, rectangles⟩

/-- An item of a CRDT sequence (crdt-sequence.ts). -/
structure CrdtSequenceItem (α : Type) where
  itemId : CrdtId
  leftId : CrdtId
  rightId : CrdtId
  deletedLength : Nat
  value : α
deriving DecidableEq, Repr

/-- Lookup in a JS Map modelled as an insertion-ordered association
list with unique keys. -/
def assocGet (l : List (String × β)) (k : String) : Option β :=
  (l.find? (fun p => p.1 == k)).map (fun p => p.2)

/-- Key membership in a JS Map modelled as an association list. -/
def assocHas (l : List (String × β)) (k : String) : Bool :=
  l.any (fun p => p.1 == k)

/-- JS Map.set: update in place when the key exists (keeping its
position), append otherwise. -/
def assocSet (l : List (String × β)) (k : String) (v : β) : List (String × β) :=
  if assocHas l k then l.map (fun p => if p.1 == k then (k, v) else p)
  else l ++ [(k, v)]

/-- JS Set.add on an insertion-ordered duplicate-free list. -/
def setAdd (l : List String) (x : String) : List String :=
  if l.contains x then l else l ++ [x]

/-- The code units of a string.  JS string comparison is lexicographic
on UTF-16 code units; every key sorted below is ASCII, where code
units and code points agree. -/
def strCodes (s : String) : List Nat := s.data.map Char.toNat

/-- Lexicographic less-than on code unit sequences, as performed by the
JS string < comparison: a strict prefix is smaller. -/
def ltCodes : List Nat → List Nat → Bool
  | [], [] => false
  | [], _ :: _ => true
  | _ :: _, [] => false
  | a :: as, b :: bs =>
    if a < b then true else if b < a then false else ltCodes as bs

/-- The JS string less-than used by the default Array.prototype.sort
comparator. -/
def jsStringLt (a b : String) : Bool := ltCodes (strCodes a) (strCodes b)

/-- Insert a string into a list, before the first element it is
strictly smaller than. -/
def jsSortInsert (x : String) : List String → List String
  | [] => [x]
  | y :: ys => if jsStringLt x y then x :: y :: ys else y :: jsSortInsert x ys

/-- Array.prototype.sort() with the default comparator, on the
duplicate-free key lists sorted by toposortItems: the ascending
lexicographic code-unit order.  On duplicate-free inputs every
comparison sort produces this unique ascending arrangement, so an
insertion sort models the JS sort exactly. -/
def jsSort : List String → List String
  | [] => []
  | x :: xs => jsSortInsert x (jsSort xs)

/-- The comes-after map of toposortItems: a JS Map from node keys to
the set of keys they come after. -/
abbrev DepMap : Type := List (String × List String)

/-- data.get(k)!.add(x) in toposortItems (the key is present). -/
def depAdd (m : DepMap) (k : String) (x : String) : DepMap :=
  m.map (fun p => if p.1 == k then (p.1, setAdd p.2 x) else p)

/-- if (!data.has(k)) data.set(k, new Set()) in toposortItems. -/
def depInit (m : DepMap) (k : String) : DepMap :=
  if assocHas m k then m else m ++ [(k, [])]

/-- getSideId from toposortItems: the left or right reference, replaced
by the matching sentinel when it is the end marker or refers to no item
of the sequence. -/
def getSideId (itemDict : List (String × CrdtSequenceItem α))
    (item : CrdtSequenceItem α) (left : Bool) : String :=
  let sideId := if left then item.leftId else item.rightId
  if crdtIdEquals sideId END_MARKER || !(assocHas itemDict (crdtIdToString sideId)) then
    (if left then "__start" else "__end")
  else crdtIdToString sideId

/-- The per-item updates of the comes-after map in toposortItems. -/
def toposortInsert (itemDict : List (String × CrdtSequenceItem α))
    (m : DepMap) (item : CrdtSequenceItem α) : DepMap :=
  let itemKey := crdtIdToString item.itemId
  let leftId := getSideId itemDict item true
  let rightId := getSideId itemDict item false
  depAdd (depInit (depAdd (depInit m itemKey) itemKey leftId) rightId) rightId itemKey

/-- The fill-in-sources pass of toposortItems: every key mentioned as a
dependency gets an entry with an empty set if it has none. -/
def fillSources (m : DepMap) : DepMap :=
  let allDeps := ((m.map (fun p => p.2)).flatten).foldl setAdd []
  allDeps.foldl depInit m

/-- The nextItems set of one loop iteration of toposortItems: the keys
whose dependency set is empty, in map order. -/
def readyKeys (data : DepMap) : List String :=
  (data.filter (fun p => p.2.isEmpty)).map (fun p => p.1)

/-- The map rebuilt at the end of one loop iteration of toposortItems:
processed keys are dropped and removed from every dependency set. -/
def removeReady (data : DepMap) (nextItems : List String) : DepMap :=
  (data.filter (fun p => !(nextItems.contains p.1))).map
    (fun p => (p.1, p.2.filter (fun d => !(nextItems.contains d))))

/-- The Kahn-style peeling loop of toposortItems, returning the chunk
of keys emitted in each iteration (the keys of one ready layer that
belong to the item dictionary, sorted by the JS default string sort).
The JS loop always terminates because each iteration removes at least
one key, so any fuel of at least the number of keys plus one yields
the JS result; toposortLayers below supplies such a fuel. -/
def toposortLoop (itemDict : List (String × CrdtSequenceItem α)) :
    Nat → DepMap → Except String (List (List String))
  | 0, _ => Except.error "fuel exhausted"
  | Nat.succ fuel, data =>
    if (readyKeys data).length == 1 && (readyKeys data).contains "__end" then Except.ok []
    else if (readyKeys data).isEmpty then Except.error "cyclic dependency"
    else
      (toposortLoop itemDict fuel (removeReady data (readyKeys data))).map
        (fun chunks =>
          jsSort ((readyKeys data).filter (fun k => assocHas itemDict k)) :: chunks)

/-- The item dictionary of toposortItems: a JS Map from stringified ids
to the items. -/
def itemDictOf (items : List (CrdtSequenceItem α)) :
    List (String × CrdtSequenceItem α) :=
  items.foldl (fun d item => assocSet d (crdtIdToString item.itemId) item) []

/-- The comes-after map of toposortItems after the fill-in-sources
pass. -/
def dataOf (items : List (CrdtSequenceItem α)) : DepMap :=
  fillSources (items.foldl (toposortInsert (itemDictOf items)) [])

/-- The layers emitted by toposortItems, as lists of map keys. -/
def toposortLayers (items : List (CrdtSequenceItem α)) :
    Except String (List (List String)) :=
  if items.isEmpty then Except.ok []
  else toposortLoop (itemDictOf items) ((dataOf items).length + 2) (dataOf items)

/-- toposortItems from crdt-sequence.ts: the concatenation of the
emitted layers, mapped back to the CrdtIds of the dictionary items
(every emitted key belongs to the dictionary by construction). -/
def toposortItems (items : List (CrdtSequenceItem α)) : Except String (List CrdtId) :=
  (toposortLayers items).map (fun chunks =>
    chunks.flatten.filterMap (fun k =>
      (assocGet (itemDictOf items) k).map (fun it => it.itemId)))

/-- A last-writer-wins register (interface LwwValue). -/
structure LwwValue (α : Type) where
  timestamp : CrdtId
  value : α
deriving DecidableEq, Repr

/-- A stroke point (scene-items.ts); the six numeric fields are carried
as their bit patterns, untouched by the tree builder. -/
structure Point where
  x : Nat
  y : Nat
  speed : Nat
  direction : Nat
  width : Nat
  pressure : Nat
deriving DecidableEq, Repr

/-- A stroke line (scene-items.ts); thicknessScale and startingLength
are f64/f32 bit patterns, untouched by the tree builder. -/
structure Line where
  color : Nat
  tool : Nat
  points : List Point
  thicknessScale : Nat
  startingLength : Nat
  moveId : Option CrdtId
deriving DecidableEq, Repr

/-- A text item value: a string (as its byte sequence) or an integer
formatting code (scene-items.ts Text items). -/
abbrev TextItemValue : Type := List Nat ⊕ Nat

/-- A text block (scene-items.ts): the items of its CrdtSequence in
insertion order, the styles map keyed by stringified CrdtId, and the
position and width as f64/f32 bit patterns. -/
structure Text where
  items : List (CrdtSequenceItem TextItemValue)
  styles : List (String × LwwValue Nat)
  posX : Nat
  posY : Nat
  width : Nat
deriving DecidableEq, Repr

/-- A value stored in a scene node child sequence.  The TS builder
stores the referenced Group object itself for group items; because the
tree map is the authority for node contents, the reference is recorded
here by its nodeId and resolved through the tree (the group constructor
below never stores children inside another node).  Line and glyph
payloads flow through the builder untouched. -/
inductive SceneItem where
  | group (nodeId : CrdtId)
  | line (value : Line)
  | glyph (value : GlyphRange)
deriving DecidableEq, Repr

/-- CrdtSequence (crdt-sequence.ts): a JS Map from stringified item ids
to items, in insertion order.  Item values are optional because the
decoded blocks can carry null values (tombstones). -/
structure CrdtSequence (α : Type) where
  items : List (String × CrdtSequenceItem α)
deriving DecidableEq, Repr

/-- CrdtSequence.add: fails when the item id is already present. -/
def CrdtSequence.add (s : CrdtSequence α) (item : CrdtSequenceItem α) :
    Except String (CrdtSequence α) :=
  let key := crdtIdToString item.itemId
  if assocHas s.items key then Except.error ("Already have item " ++ key)
  else Except.ok ⟨s.items ++ [(key, item)]⟩

/-- A group node (scene-items.ts): anchorThreshold and anchorOriginX
carry f32 bit patterns. -/
structure Group where
  nodeId : CrdtId
  children : CrdtSequence (Option SceneItem)
  label : LwwValue String
  visible : LwwValue Bool
  anchorId : Option (LwwValue CrdtId)
  anchorType : Option (LwwValue Nat)
  anchorThreshold : Option (LwwValue Nat)
  anchorOriginX : Option (LwwValue Nat)
deriving DecidableEq, Repr

/-- createGroup with its defaults: empty children, label (0,0) paired
with the empty string, visible (0,0) paired with true, no anchors. -/
def createGroup (nodeId : CrdtId) : Group :=
  ⟨nodeId, ⟨[]⟩, ⟨⟨0, 0⟩, ""⟩, ⟨⟨0, 0⟩, true⟩, none, none, none, none⟩

/-- The decoded blocks consumed by buildTree (scene-stream.ts); the
builder dispatches on blockType through the type guards, so blocks it
ignores (author ids, migration info, page info, scene info, text and
tombstone items, unreadable blocks) are collected under other. -/
inductive Block where
  | sceneTree (treeId : CrdtId) (nodeId : CrdtId) (isUpdate : Bool) (parentId : CrdtId)
  | treeNode (group : Group)
  | sceneGroupItem (parentId : CrdtId) (item : CrdtSequenceItem (Option CrdtId))
  | sceneLineItem (parentId : CrdtId) (item : CrdtSequenceItem (Option Line))
  | sceneGlyphItem (parentId : CrdtId) (item : CrdtSequenceItem (Option GlyphRange))
  | rootText (blockId : CrdtId) (value : Text)
  | other
deriving DecidableEq, Repr

/-- SceneTree (scene-tree.ts): the JS Map from stringified node ids to
groups, plus the root text. -/
structure SceneTree where
  nodes : List (String × Group)
  rootText : Option Text
deriving DecidableEq, Repr

/-- The root node id (0, 1). -/
def ROOT_ID : CrdtId := ⟨0, 1⟩

/-- A fresh SceneTree: the constructor registers the root group. -/
def initialSceneTree : SceneTree :=
  ⟨[(crdtIdToString ROOT_ID, createGroup ROOT_ID)], none⟩

/-- SceneTree.get. -/
def SceneTree.get (t : SceneTree) (nodeId : CrdtId) : Option Group :=
  assocGet t.nodes (crdtIdToString nodeId)

/-- Replace a node in the tree map (the effect of the TS in-place
mutation of the Group object held by the map). -/
def SceneTree.set (t : SceneTree) (nodeId : CrdtId) (g : Group) : SceneTree :=
  ⟨assocSet t.nodes (crdtIdToString nodeId) g, t.rootText⟩

/-- SceneTree.addNode: creates the node if absent; the parentId
argument is accepted and ignored, exactly as in scene-tree.ts. -/
def SceneTree.addNode (t : SceneTree) (nodeId : CrdtId) (_parentId : CrdtId) : SceneTree :=
  let key := crdtIdToString nodeId
  if assocHas t.nodes key then t
  else ⟨t.nodes ++ [(key, createGroup nodeId)], t.rootText⟩

/-- SceneTree.addItem: appends the item to the children of the parent,
failing when the parent is unknown. -/
def SceneTree.addItem (t : SceneTree) (item : CrdtSequenceItem (Option SceneItem))
    (parentId : CrdtId) : Except String SceneTree :=
  match t.get parentId with
  | none => Except.error ("Parent node " ++ crdtIdToString parentId ++ " does not exist")
  | some parent =>
    (parent.children.add item).map (fun newChildren =>
      t.set parentId { parent with children := newChildren })

/-- One step of buildTree (scene-tree.ts): the body of its loop for a
single block.  A thrown JS error becomes an error result. -/
def buildTreeStep (tree : SceneTree) : Block → Except String SceneTree
  | Block.sceneTree treeId _nodeId _isUpdate parentId =>
    Except.ok (tree.addNode treeId parentId)
  | Block.treeNode g =>
    match tree.get g.nodeId with
    | none =>
      Except.error ("Node does not exist for TreeNodeBlock: " ++ crdtIdToString g.nodeId)
    | some node =>
      Except.ok (tree.set g.nodeId
        { node with label := g.label, visible := g.visible, anchorId := g.anchorId,
                    anchorType := g.anchorType, anchorThreshold := g.anchorThreshold,
                    anchorOriginX := g.anchorOriginX })
  | Block.sceneGroupItem parentId item =>
    match item.value with
    | none => Except.ok tree
    | some nodeId =>
      match tree.get nodeId with
      | none =>
        Except.error ("Node does not exist for SceneGroupItemBlock: " ++ crdtIdToString nodeId)
      | some _node =>
        tree.addItem ⟨item.itemId, item.leftId, item.rightId, item.deletedLength,
          some (SceneItem.group nodeId)⟩ parentId
  | Block.sceneLineItem parentId item =>
    tree.addItem ⟨item.itemId, item.leftId, item.rightId, item.deletedLength,
      item.value.map SceneItem.line⟩ parentId
  | Block.sceneGlyphItem parentId item =>
    tree.addItem ⟨item.itemId, item.leftId, item.rightId, item.deletedLength,
      item.value.map SceneItem.glyph⟩ parentId
  | Block.rootText _blockId value => Except.ok { tree with rootText := some value }
  | Block.other => Except.ok tree

/-- buildTree (scene-tree.ts): fold the step over the block stream;
the first thrown error aborts the build. -/
def buildTree (tree : SceneTree) (blocks : List Block) : Except String SceneTree :=
  blocks.foldlM buildTreeStep tree

/-- A concurrent insertion: item (1, 2) with both sides pointing at the
end marker. -/
def itemA : CrdtSequenceItem (Option Nat) := ⟨⟨1, 2⟩, ⟨0, 0⟩, ⟨0, 0⟩, 0, none⟩

/-- A concurrent insertion: item (1, 10) with both sides pointing at
the end marker, becoming ready in the same Kahn layer as itemA. -/
def itemB : CrdtSequenceItem (Option Nat) := ⟨⟨1, 10⟩, ⟨0, 0⟩, ⟨0, 0⟩, 0, none⟩

/-- A GlyphRange wire image with the start field present: tag(2,0x4)
u32 start 5; tag(3,0x4) u32 length 0; tag(4,0x4) u32 color 9;
tag(5,0xC) length 4 holding varuint 2, the ASCII flag, and the text
bytes ab; tag(6,0xC) length 1 holding varuint 0 (zero rectangles). -/
def glyphBytes : List Nat :=
  [36, 5, 0, 0, 0, 52, 0, 0, 0, 0, 68, 9, 0, 0, 0,
   92, 4, 0, 0, 0, 2, 1, 97, 98, 108, 1, 0, 0, 0, 0]

/-- The same GlyphRange wire image without the optional start and
length fields. -/
def glyphBytesNoStart : List Nat :=
  [68, 9, 0, 0, 0, 92, 4, 0, 0, 0, 2, 1, 97, 98, 108, 1, 0, 0, 0, 0]

theorem ltCodes_irrefl : ∀ x : List Nat, ltCodes x x = false
  | [] => rfl
  | _ :: as => by
    simp only [ltCodes, lt_irrefl, if_false]
    exact ltCodes_irrefl as

theorem ltCodes_trans : ∀ x y z : List Nat,
    ltCodes x y = true → ltCodes y z = true → ltCodes x z = true := by
  intro x
  induction x with
  | nil =>
    intro y z hxy hyz
    cases y with
    | nil => simp [ltCodes] at hxy
    | cons b bs =>
      cases z with
      | nil => simp [ltCodes] at hyz
      | cons c cs => simp [ltCodes]
  | cons a as ih =>
    intro y z hxy hyz
    cases y with
    | nil => simp [ltCodes] at hxy
    | cons b bs =>
      cases z with
      | nil => simp [ltCodes] at hyz
      | cons c cs =>
        simp only [ltCodes] at hxy hyz ⊢
        split_ifs at hxy hyz ⊢ <;>
          first
          | rfl
          | omega
          | exact ih bs cs hxy hyz

theorem jsStringLt_trans (a b c : String) (hab : jsStringLt a b = true)
    (hbc : jsStringLt b c = true) : jsStringLt a c = true :=
  ltCodes_trans _ _ _ hab hbc

theorem bool_eq_true_of_ne_false (b : Bool) (h : ¬ b = false) : b = true := by
  cases b with
  | false => exact absurd rfl h
  | true => rfl

theorem jsStringLt_asymm (a b : String) (h : jsStringLt a b = true) :
    jsStringLt b a = false := by
  by_contra hc
  have hba := bool_eq_true_of_ne_false _ hc
  have hco := jsStringLt_trans a b a h hba
  rw [jsStringLt, ltCodes_irrefl] at hco
  simp at hco

theorem mem_jsSortInsert (x a : String) : ∀ l : List String,
    a ∈ jsSortInsert x l → a = x ∨ a ∈ l
  | [] => by simp [jsSortInsert]
  | y :: ys => by
    simp only [jsSortInsert]
    by_cases h : jsStringLt x y = true
    · rw [if_pos h]
      intro hmem
      rcases List.mem_cons.mp hmem with h1 | h1
      · exact Or.inl h1
      · exact Or.inr h1
    · rw [if_neg h]
      intro hmem
      rcases List.mem_cons.mp hmem with h1 | h1
      · exact Or.inr (h1 ▸ List.mem_cons_self y ys)
      · rcases mem_jsSortInsert x a ys h1 with h2 | h2
        · exact Or.inl h2
        · exact Or.inr (List.mem_cons_of_mem y h2)

theorem pairwise_jsSortInsert (x : String) : ∀ l : List String,
    List.Pairwise (fun a b => jsStringLt b a = false) l →
    List.Pairwise (fun a b => jsStringLt b a = false) (jsSortInsert x l)
  | [], _ => by simp [jsSortInsert]
  | y :: ys, h => by
    rcases List.pairwise_cons.mp h with ⟨hy, hys⟩
    simp only [jsSortInsert]
    by_cases hxy : jsStringLt x y = true
    · rw [if_pos hxy]
      refine List.pairwise_cons.mpr ⟨?_, h⟩
      intro z hz
      rcases List.mem_cons.mp hz with hzy | hzys
      · exact hzy ▸ jsStringLt_asymm x y hxy
      · have hzy : jsStringLt z y = false := hy z hzys
        by_contra hc
        have hzx := bool_eq_true_of_ne_false _ hc
        have hzy2 := jsStringLt_trans z x y hzx hxy
        rw [hzy2] at hzy
        simp at hzy
    · have hxy2 : jsStringLt x y = false := by
        cases hh : jsStringLt x y with
        | false => rfl
        | true => exact absurd hh hxy
      rw [if_neg hxy]
      refine List.pairwise_cons.mpr ⟨?_, pairwise_jsSortInsert x ys hys⟩
      intro z hz
      rcases mem_jsSortInsert x z _ hz with hzx | hzys
      · exact hzx ▸ hxy2
      · exact hy z hzys

theorem pairwise_jsSort : ∀ l : List String,
    List.Pairwise (fun a b => jsStringLt b a = false) (jsSort l)
  | [] => by simp [jsSort]
  | x :: xs => pairwise_jsSortInsert x (jsSort xs) (pairwise_jsSort xs)

theorem toposortLoop_pairwise {α : Type} (itemDict : List (String × CrdtSequenceItem α)) :
    ∀ (fuel : Nat) (data : DepMap) (chunks : List (List String)),
      toposortLoop itemDict fuel data = Except.ok chunks →
      ∀ L ∈ chunks, List.Pairwise (fun a b => jsStringLt b a = false) L := by
  intro fuel
  induction fuel with
  | zero =>
    intro data chunks h
    simp [toposortLoop] at h
  | succ n ih =>
    intro data chunks h
    rw [toposortLoop] at h
    split at h
    · injection h with h2
      subst h2
      intro L hL
      simp at hL
    · split at h
      · exact absurd h (by simp)
      · cases hrec : toposortLoop itemDict n (removeReady data (readyKeys data)) with
        | error e =>
          rw [hrec] at h
          simp [Except.map] at h
        | ok rest =>
          rw [hrec] at h
          simp only [Except.map, Except.ok.injEq] at h
          subst h
          intro L hL
          rcases List.mem_cons.mp hL with h1 | h1
          · exact h1 ▸ pairwise_jsSort _
          · exact ih _ rest hrec L h1

/-- C2 (amended): within each layer of simultaneously-ready items, the
keys are emitted in ascending JS string order of their crdtIdToString
renderings, pairwise along the layer, rather than in ascending numeric
lexicographic order of the (author, counter) pairs. -/
theorem toposortLayers_pairwise {α : Type} (items : List (CrdtSequenceItem α))
    (chunks : List (List String)) (h : toposortLayers items = Except.ok chunks) :
    ∀ L ∈ chunks, List.Pairwise (fun a b => jsStringLt b a = false) L := by
  rw [toposortLayers] at h
  split at h
  · injection h with h2
    subst h2
    intro L hL
    simp at hL
  · exact toposortLoop_pairwise _ _ _ chunks h

/-- C2 witness: the two-item sequence itemA, itemB produces the layers
(empty for the sentinel) and the layer of both items, which is pairwise
ascending in JS string order. -/
theorem toposortLayers_pairwise_witness :
    toposortLayers [itemA, itemB] =
      Except.ok [[], ["CrdtId(1, 10)", "CrdtId(1, 2)"]] ∧
    List.Pairwise (fun a b => jsStringLt b a = false)
      ["CrdtId(1, 10)", "CrdtId(1, 2)"] :=
  ⟨by decide,
    toposortLayers_pairwise [itemA, itemB] [[], ["CrdtId(1, 10)", "CrdtId(1, 2)"]]
      (by decide) ["CrdtId(1, 10)", "CrdtId(1, 2)"] (by simp)⟩

/-- C2 counterexample: items (1, 2) and (1, 10) become ready in the
same Kahn layer, (1, 2) is numerically smaller, yet sorted_ids emits
(1, 10) first, because the JS sort compares the decimal strings
CrdtId(1, 10) and CrdtId(1, 2) and the fifth character 1 sorts below
2. -/
theorem toposortItems_not_numeric_order :
    toposortItems [itemA, itemB] = Except.ok [createCrdtId 1 10, createCrdtId 1 2] ∧
    crdtIdCompare (createCrdtId 1 2) (createCrdtId 1 10) = -1 ∧
    toposortLayers [itemA, itemB] =
      Except.ok [[], [crdtIdToString (createCrdtId 1 10),
        crdtIdToString (createCrdtId 1 2)]] :=
  ⟨by decide, by decide, by decide⟩

theorem writeVaruintGo_cont (v : Nat) (h : v / 128 ≠ 0) :
    writeVaruintGo v = Nat.lor (v % 128) 128 :: writeVaruintGo (v / 128) := by
  rw [writeVaruintGo]
  simp [h]

theorem writeVaruintGo_last (v : Nat) (h : v / 128 = 0) :
    writeVaruintGo v = [v % 128] := by
  rw [writeVaruintGo]
  simp [h]

/-- C3: the varuint round-trip fails at n = 2147483648 = 2^31.  The
writer emits the correct minimal five-byte LEB128 encoding, but the
reader accumulates with the 32-bit signed JS bitwise operators and
returns the negative int32 -2147483648 instead of n. -/
theorem varuint_roundtrip_fails_at_two_pow_31 :
    writeVaruint 2147483648 = Except.ok [128, 128, 128, 128, 8] ∧
    readVaruint [128, 128, 128, 128, 8] = Except.ok (-2147483648, 5) ∧
    (-2147483648 : Int) ≠ 2147483648 := by
  refine ⟨?_, by decide, by decide⟩
  have e1 : (2147483648 : Int).toNat % 2 ^ 32 = 2147483648 := by decide
  rw [writeVaruint, if_neg (by norm_num), e1,
    writeVaruintGo_cont 2147483648 (by norm_num),
    writeVaruintGo_cont 16777216 (by norm_num),
    writeVaruintGo_cont 131072 (by norm_num),
    writeVaruintGo_cont 1024 (by norm_num),
    writeVaruintGo_last 8 (by norm_num)]
  decide

theorem readVaruint_preserves_data (s : DStream) :
    (DStream.readVaruint s).2.data = s.data := by
  rw [DStream.readVaruint]
  split <;> rfl

theorem readTagValues_preserves_data (s : DStream) :
    (DStream.readTagValues s).2.data = s.data := by
  have hd := readVaruint_preserves_data s
  rw [DStream.readTagValues]
  cases hv : DStream.readVaruint s with
  | mk r s1 =>
    rw [hv] at hd
    cases r with
    | error e => exact hd
    | ok x =>
      simp only []
      split
      · exact hd
      · exact hd

/-- C4: whenever readTag decodes a tag whose field index or wire type
differs from the expected pair, it fails with UnexpectedTag and leaves
the stream exactly as it was before the call: nothing is consumed. -/
theorem readTag_mismatch_restores_position (s : DStream) (expectedIndex : Int)
    (expectedType : Nat) (i : Int) (t : Nat) (s1 : DStream)
    (hdec : DStream.readTagValues s = (Except.ok (i, t), s1))
    (hne : i ≠ expectedIndex ∨ t ≠ expectedType) :
    DStream.readTag s expectedIndex expectedType =
      (Except.error StreamErr.unexpectedTag, s) := by
  have hdata : s1.data = s.data := by
    have hp := readTagValues_preserves_data s
    rw [hdec] at hp
    exact hp
  rw [DStream.readTag, hdec]
  show (if i ≠ expectedIndex then
          (Except.error StreamErr.unexpectedTag, (⟨s1.data, s.pos⟩ : DStream))
        else if t ≠ expectedType then
          (Except.error StreamErr.unexpectedTag, (⟨s1.data, s.pos⟩ : DStream))
        else (Except.ok (i, t), s1)) = (Except.error StreamErr.unexpectedTag, s)
  by_cases hi : i = expectedIndex
  · have ht : t ≠ expectedType := by
      rcases hne with h1 | h1
      · exact absurd hi h1
      · exact h1
    rw [if_neg (not_not_intro hi), if_pos ht, hdata]
  · rw [if_pos hi, hdata]

/-- C4 witness: the single byte 0x1C decodes to the tag (1, 0xC); read
against the expected pair (2, 0xC) the call fails with UnexpectedTag
and the position is restored to 0. -/
theorem readTag_mismatch_witness :
    DStream.readTagValues ⟨[28], 0⟩ = (Except.ok (1, 12), ⟨[28], 1⟩) ∧
    DStream.readTag ⟨[28], 0⟩ 2 12 =
      (Except.error StreamErr.unexpectedTag, ⟨[28], 0⟩) :=
  ⟨by decide,
    readTag_mismatch_restores_position ⟨[28], 0⟩ 2 12 1 12 ⟨[28], 1⟩ (by decide)
      (Or.inl (by decide))⟩

/-- C5: the decoded GlyphRange length.  When start is absent the length
is the text length (here 2).  But when start is present and the wire
carries the encoded length 0 with a non-empty text, the decoder also
returns the text length 2 instead of the encoded 0: the JS expression
length || text.length cannot return 0 for non-empty text. -/
theorem readGlyphRange_zero_length_becomes_text_length :
    readGlyphRange ⟨glyphBytesNoStart, 0⟩ =
      (Except.ok ⟨none, 2, [97, 98], 9, []⟩, ⟨glyphBytesNoStart, 20⟩) ∧
    readGlyphRange ⟨glyphBytes, 0⟩ =
      (Except.ok ⟨some 5, 2, [97, 98], 9, []⟩, ⟨glyphBytes, 30⟩) ∧
    (2 : Nat) ≠ 0 :=
  ⟨by decide, by decide, by decide⟩

/-- C1 (amended): a TreeNodeBlock whose node is absent from the tree
makes buildTree fail with an error naming the node (it is not created);
when the node is present, the block's LWW registers are copied onto
it.  Nodes are created only by SceneTreeBlocks through addNode. -/
theorem buildTree_treeNode_requires_existing_node (tree : SceneTree) (g : Group)
    (rest : List Block) :
    (tree.get g.nodeId = none →
      buildTree tree (Block.treeNode g :: rest) =
        Except.error ("Node does not exist for TreeNodeBlock: " ++ crdtIdToString g.nodeId)) ∧
    (∀ node, tree.get g.nodeId = some node →
      buildTreeStep tree (Block.treeNode g) =
        Except.ok (tree.set g.nodeId
          { node with label := g.label, visible := g.visible, anchorId := g.anchorId,
                      anchorType := g.anchorType, anchorThreshold := g.anchorThreshold,
                      anchorOriginX := g.anchorOriginX })) := by
  constructor
  · intro h
    simp [buildTree, List.foldlM, buildTreeStep, h]
    rfl
  · intro node h
    simp [buildTreeStep, h]

/-- C1 witness: node (0, 2) is absent from a fresh tree, and building
from the stream holding only its TreeNodeBlock fails with the error
naming it. -/
theorem buildTree_treeNode_witness :
    initialSceneTree.get (createCrdtId 0 2) = none ∧
    buildTree initialSceneTree [Block.treeNode (createGroup (createCrdtId 0 2))] =
      Except.error ("Node does not exist for TreeNodeBlock: " ++
        crdtIdToString (createCrdtId 0 2)) :=
  ⟨by decide,
    (buildTree_treeNode_requires_existing_node initialSceneTree
      (createGroup (createCrdtId 0 2)) []).1 (by decide)⟩

/-- C1 counterexample: a stream consisting of one TreeNodeBlock for the
absent node (0, 2) makes buildTree throw instead of creating the node
with defaults and copying the registers. -/
theorem buildTree_treeNode_missing_throws :
    buildTree initialSceneTree [Block.treeNode (createGroup (createCrdtId 0 2))] =
      Except.error "Node does not exist for TreeNodeBlock: CrdtId(0, 2)" := by
  decide

end RmScene
